import Mathlib

/-!
Verification of the PinIT image-forensics scoring engine
(`src/real_analysis.py`) against its natural-language specification.

The Python source is shallowly embedded below:
* amounts that Python computes in floating point (the penalty weights
  0.5 / 0.3 / 0.22 / 1.8) are modelled exactly over `ℚ`;
* Python's `round` (round-half-to-even) is modelled by `pyRound`;
* EXIF dictionaries are modelled as association lists from numeric tags
  to already-decoded strings (piexif stores byte strings; `_safe_decode`
  of a byte string is its stripped decoding, modelled by `String.trim`);
* file-system effects of the ELA step are modelled by an oracle that says
  which operations succeed, so cleanup behaviour is visible.
-/

namespace PinIT

/-- Python `round(x)` — round half to even (banker's rounding). -/
def pyRound (q : ℚ) : ℤ :=
  if Int.fract q < 1/2 then ⌊q⌋
  else if 1/2 < Int.fract q then ⌊q⌋ + 1
  else if 2 ∣ ⌊q⌋ then ⌊q⌋ else ⌊q⌋ + 1

/-- Python `round(x, 2)` modelled over `ℚ`. -/
def round2 (q : ℚ) : ℚ := (pyRound (q * 100) : ℚ) / 100

/-- An EXIF structure as returned by `piexif.load`: the three IFD
dictionaries the code reads, each an association list from numeric tag
to the decoded string value. A parse failure yields the empty record. -/
structure Exif where
  zeroth : List (ℕ × String)
  exifIFD : List (ℕ × String)
  gps : List (ℕ × String)
deriving Repr, DecidableEq

/-- Embeds `_get_software`: tag 305 (`piexif.ImageIFD.Software`) of the 0th IFD,
default `b"Unknown"`, passed through `_safe_decode` (strip). -/
def get_software (e : Exif) : String :=
  match e.zeroth.lookup 305 with
  | some v => v.trim
  | none => "Unknown"

/-- Embeds the make part of `_get_device_make_model`: tag 271 (`Make`). -/
def get_make (e : Exif) : String :=
  match e.zeroth.lookup 271 with
  | some v => v.trim
  | none => "Unknown"

/-- Embeds the model part of `_get_device_make_model`: tag 272 (`Model`). -/
def get_model (e : Exif) : String :=
  match e.zeroth.lookup 272 with
  | some v => v.trim
  | none => "Unknown"

/-- Embeds `_get_datetime_original`: tag 36867 (`DateTimeOriginal`) of the Exif
IFD, default `b""`; an empty (falsy) value yields `"Unknown"`. -/
def get_datetime_original (e : Exif) : String :=
  match e.exifIFD.lookup 36867 with
  | some v => if v = "" then "Unknown" else v.trim
  | none => "Unknown"

/-- Embeds `_gps_present`: `bool(gps) and len(gps.keys()) > 0` — the GPS IFD is
non-empty; no tag is inspected and nothing is decoded. -/
def gps_present (e : Exif) : Bool :=
  !e.gps.isEmpty

/-- Embeds `exif_present` of `analyze_image`: at least one of the three IFDs the
code reads is non-empty (`bool(exif)` is subsumed: an empty dict has no
non-empty sub-dict). -/
def exif_present (e : Exif) : Bool :=
  !e.zeroth.isEmpty || !e.exifIFD.isEmpty || !e.gps.isEmpty

/-- Does the character list `pat` occur as a prefix of `s`?  Helper for the
Python `in` substring test. -/
def prefixAt : List Char → List Char → Bool
  | [], _ => true
  | _ :: _, [] => false
  | a :: as, b :: bs => a = b && prefixAt as bs

/-- Does `pat` occur as a contiguous sublist of `s`? -/
def containsAt (pat : List Char) : List Char → Bool
  | [] => prefixAt pat []
  | s :: rest => prefixAt pat (s :: rest) || containsAt pat rest

/-- Python `pat in s` for strings. -/
def strContains (s pat : String) : Bool :=
  containsAt pat.toList s.toList

/-- Lower-cases one character; models Python `str.lower` on the ASCII
range, which covers every string the code compares. -/
def charLower (c : Char) : Char :=
  if 'A' ≤ c && c ≤ 'Z' then Char.ofNat (c.toNat + 32) else c

/-- Models Python `software.lower()`. -/
def strLower (s : String) : String :=
  String.mk (s.toList.map charLower)

/-- The generative-software substrings tested by `analyze_image`. -/
def generativeTags : List String :=
  ["stable diffusion", "midjourney", "dall-e", "comfyui", "automatic1111"]

/-- The editing-software substrings tested for the risk drivers. -/
def editingTags : List String :=
  ["photoshop", "snapseed", "lightroom", "gimp"]

/-- Tests `any(x in software.lower() for x in [...])` over the generative tags. -/
def isGenerativeSoftware (software : String) : Bool :=
  generativeTags.any (fun x => strContains (strLower software) x)

/-- Tests `any(x in software.lower() for x in [...])` over the editing tags. -/
def isEditingSoftware (software : String) : Bool :=
  editingTags.any (fun x => strContains (strLower software) x)

/-- The AI-likelihood heuristic of `analyze_image`: fixed increments for a
square resolution in {512, 768, 1024, 1536}, missing EXIF, and a
generative software tag; sum capped at 100. -/
def ai_score_of (width height : ℕ) (e : Exif) : ℕ :=
  let s1 : ℕ := if width = height ∧ (width = 512 ∨ width = 768 ∨ width = 1024 ∨ width = 1536) then 25 else 0
  let s2 : ℕ := if exif_present e then 0 else 20
  let s3 : ℕ := if isGenerativeSoftware (get_software e) then 40 else 0
  min 100 (s1 + s2 + s3)

/-- Embeds `compute_metadata_integrity`: start at 100, deduct 30 for missing
EXIF, 20 for missing GPS, 20 for missing timestamp, 10 for unknown
software, clamp to `[0, 100]`. -/
def compute_metadata_integrity (exifPresent gpsPresent datetimePresent softwareKnown : Bool) : ℤ :=
  let d1 : ℤ := if exifPresent then 0 else 30
  let d2 : ℤ := if gpsPresent then 0 else 20
  let d3 : ℤ := if datetimePresent then 0 else 20
  let d4 : ℤ := if softwareKnown then 0 else 10
  max 0 (min 100 (100 - d1 - d2 - d3 - d4))

/-- The tamper-probability mapping of `_ela_metrics`:
`min(100.0, mean_val * 1.8 + p95 * 0.22)` followed by `int(round(...))`. -/
def tampering_probability (mean_val p95 : ℚ) : ℤ :=
  pyRound (min 100 (mean_val * (9/5) + p95 * (11/50)))

/-- Embeds `compute_authenticity_score`: bounded penalties, secure-capture bonus,
result clamped to `[5, 100]`. -/
def compute_authenticity_score (meta_score tamper_prob ai_score : ℤ) (secure_bonus : ℤ) : ℤ :=
  let tamper_penalty : ℚ := min ((tamper_prob : ℚ) * (1/2)) 40
  let ai_penalty : ℚ := min ((ai_score : ℚ) * (3/10)) 20
  let meta_penalty : ℚ := max 0 (50 - (meta_score : ℚ) * (1/2))
  let score : ℚ := 100 - (tamper_penalty + ai_penalty + meta_penalty) + (secure_bonus : ℚ)
  max 5 (min 100 (pyRound score))

/-- Embeds `risk_from_score`: the four-band classifier with cutoffs 90 / 75 / 60. -/
def risk_from_score (score : ℤ) : String × String :=
  if score ≥ 90 then ("Highly Authentic", "BLUE")
  else if score ≥ 75 then ("Low Risk", "GREEN")
  else if score ≥ 60 then ("Medium–High Risk", "AMBER")
  else ("High Fraud Risk", "RED")

/-- The colour palette `COLORS` as a lookup. -/
def colorsHex (k : String) : String :=
  if k = "BLUE" then "#1F4FFF"
  else if k = "GREEN" then "#1FAF55"
  else if k = "AMBER" then "#FF9F1C"
  else if k = "RED" then "#E63946"
  else "#2B2B2B"

/-- Hexadecimal digit, as in the character class of the UUID regex. -/
def isHexDigit (c : Char) : Bool :=
  (  '0' ≤ c && c ≤ '9') ||
  ( 'a' ≤ c && c ≤ 'f') ||
  ( 'A' ≤ c && c ≤ 'F')

/-- Consume exactly `n` hex digits, returning them and the remainder. -/
def takeHex : ℕ → List Char → Option (List Char × List Char)
  | 0, s => some ([], s)
  | _ + 1, [] => none
  | n + 1, c :: rest =>
    if isHexDigit c then
      match takeHex n rest with
      | some (m, r) => some (c :: m, r)
      | none => none
    else none

/-- Consume a literal dash. -/
def takeDash : List Char → Option (List Char)
  | c :: rest => if c = '-' then some rest else none
  | [] => none

/-- Match the UUID regex `[0-9a-fA-F]{8}(-[0-9a-fA-F]{4}){3}-[0-9a-fA-F]{12}`
anchored at the start of the list, returning the matched characters. -/
def matchUuidAt (s : List Char) : Option (List Char) := do
  let (g1, r1) ← takeHex 8 s
  let r2 ← takeDash r1
  let (g2, r3) ← takeHex 4 r2
  let r4 ← takeDash r3
  let (g3, r5) ← takeHex 4 r4
  let r6 ← takeDash r5
  let (g4, r7) ← takeHex 4 r6
  let r8 ← takeDash r7
  let (g5, _) ← takeHex 12 r8
  pure (g1 ++ [ '-'] ++ g2 ++ [ '-'] ++ g3 ++ [ '-'] ++ g4 ++ [ '-'] ++ g5)

/-- Models `re.search` for the fixed-width UUID pattern: leftmost match. -/
def uuidSearch : List Char → Option (List Char)
  | [] => none
  | c :: rest =>
    match matchUuidAt (c :: rest) with
    | some m => some m
    | none => uuidSearch rest

/-- Embeds `_uuid_from_filename`: empty on an empty filename, otherwise the
leftmost UUID-shaped substring, or empty when none occurs. -/
def uuid_from_filename (filename : String) : String :=
  if filename = "" then ""
  else
    match uuidSearch filename.toList with
    | some m => String.mk m
    | none => ""

/-- The characters before the LAST slash, when the list has a slash. -/
def beforeLastSlash : List Char → Option (List Char)
  | [] => none
  | c :: rest =>
    match beforeLastSlash rest with
    | some l => some (c :: l)
    | none => if c = '/' then some [] else none

/-- Models `os.path.dirname` for the simple relative paths the app passes in:
everything before the last slash, empty when there is no slash. -/
def dirname (p : String) : String :=
  match beforeLastSlash p.toList with
  | some l => String.mk l
  | none => ""

/-- The scratch path chosen by `_ela_metrics`:
`os.path.join(os.path.dirname(image_path), "_tmp_recompress.jpg")` —
a fixed name inside the image's directory, not unique per invocation. -/
def ela_tmp_path (image_path : String) : String :=
  let d := dirname image_path
  if d = "" then "_tmp_recompress.jpg" else d ++ "/" ++ "_tmp_recompress.jpg"

/-- The per-image numeric fields returned by `_ela_metrics`. -/
structure ElaResult where
  ela_mean : ℚ
  ela_p95 : ℚ
  tamperingProb : ℤ
deriving Repr, DecidableEq

/-- Pure numeric core of `_ela_metrics`, given the mean and the 95th
percentile of the brightened difference array (both determined by the
image bytes). -/
def ela_metrics (mean_val p95 : ℚ) : ElaResult :=
  { ela_mean := round2 mean_val
    ela_p95 := round2 p95
    tamperingProb := tampering_probability mean_val p95 }

/-- Failures of the file-system steps inside `_ela_metrics`. -/
inductive ElaError
  | saveFail
  | reopenFail
deriving Repr, DecidableEq

/-- Which file-system operations of one `_ela_metrics` call succeed. -/
structure FsOracle where
  saveOk : Bool
  reopenOk : Bool
  removeOk : Bool
deriving Repr, DecidableEq

/-- Embeds `_ela_metrics` with its file-system steps explicit: save the
recompressed scratch file, reopen it, compute, then `try: os.remove`
(whose own failure is swallowed by `except: pass`).  Returns the
result-or-raised-error together with whether the scratch file is still
on disk when the call exits. -/
def ela_metrics_run (mean_val p95 : ℚ) (o : FsOracle) : Except ElaError ElaResult × Bool :=
  if !o.saveOk then (Except.error ElaError.saveFail, false)
  else if !o.reopenOk then (Except.error ElaError.reopenFail, true)
  else (Except.ok (ela_metrics mean_val p95), !o.removeOk)

/-- Everything `analyze_image` derives from the image bytes alone:
dimensions and mode from `Image.open`, byte size from `os.path.getsize`,
the content hash from `_sha256_file`, the parsed EXIF from
`_extract_exif`, and the two difference-array statistics computed inside
`_ela_metrics`.  Identical bytes give identical fields. -/
structure ImageData where
  width : ℕ
  height : ℕ
  sizeBytes : ℕ
  mode : String
  sha256 : String
  exif : Exif
  elaMean : ℚ
  elaP95 : ℚ
deriving Repr, DecidableEq

/-- The result dictionary of `analyze_image`, flattened: one field per
computed leaf of the returned dict (constant literals such as the
`duplicate_check` block carry no information and are omitted). -/
structure ForensicResult where
  generated_at : String
  overall_risk : ℤ
  overall_label : String
  metadata_score : ℤ
  tampering_score : ℤ
  ai_score : ℕ
  risk_color_key : String
  risk_hex : String
  file_size_mb : ℚ
  resolution_w : ℕ
  resolution_h : ℕ
  color_space : String
  compression_artifacts : String
  sha256 : String
  uuid_field : String
  capture_method : String
  capture_integrity_status : String
  chain_of_custody_status : String
  secure_capture : Bool
  device_make : String
  device_model : String
  datetime : String
  software : String
  gps_present : Bool
  exif_present : Bool
  ela_mean : ℚ
  ela_p95 : ℚ
  tampering_probability : ℤ
  ai_label : String
  risk_drivers : List String
  recommendation : String
deriving Repr, DecidableEq

/-- Embeds `analyze_image` (success path): the pure computation of the result
record from the image-derived data, the original filename, the
secure-capture flag, and the wall-clock date string used only for
`generated_at`. -/
def analyze_image (img : ImageData) (original_filename : String)
    (secure_capture_flag : Bool) (now : String) : ForensicResult :=
  let file_size_mb := round2 ((img.sizeBytes : ℚ) / (1024 * 1024))
  let exifP := exif_present img.exif
  let software := get_software img.exif
  let make := get_make img.exif
  let model := get_model img.exif
  let dt_original := get_datetime_original img.exif
  let gpsP := gps_present img.exif
  let datetimeP := dt_original != "Unknown"
  let softwareKnown := software != "Unknown"
  let uuid_hint := uuid_from_filename original_filename
  let uuid_embedded := (uuid_hint != "") || secure_capture_flag
  let aiScore := ai_score_of img.width img.height img.exif
  let ela := ela_metrics img.elaMean img.elaP95
  let tamper_prob := ela.tamperingProb
  let metaScore := compute_metadata_integrity exifP gpsP datetimeP softwareKnown
  let secure_bonus : ℤ := if uuid_embedded then 10 else 0
  let authScore := compute_authenticity_score metaScore tamper_prob (aiScore : ℤ) secure_bonus
  let risk := risk_from_score authScore
  let chain_status := if uuid_embedded then "Intact" else "Not Verifiable"
  let capture_method := if uuid_embedded then "PinIT Secure Capture App" else "Unknown / Standard Upload"
  let capture_integrity := if uuid_embedded then "Verified at Source" else "Not Verified"
  let compression := if tamper_prob ≥ 70 then "High" else if tamper_prob ≥ 40 then "Moderate" else "Low"
  let drivers0 :=
    (if exifP then [] else ["EXIF metadata missing or stripped."]) ++
    (if gpsP then [] else ["GPS data missing; geo-verification limited."]) ++
    (if softwareKnown && isEditingSoftware software
      then ["Editing software detected: " ++ software ++ "."] else []) ++
    (if tamper_prob ≥ 60
      then ["ELA indicates inconsistent compression/noise patterns suggesting edits."] else []) ++
    (if aiScore ≥ 50
      then ["Signals consistent with AI-generated or AI-assisted image creation/enhancement."] else [])
  let drivers := if drivers0 = []
    then ["No strong forensic indicators detected in the available signals."] else drivers0
  { generated_at := now
    overall_risk := authScore
    overall_label := risk.1
    metadata_score := metaScore
    tampering_score := tamper_prob
    ai_score := aiScore
    risk_color_key := risk.2
    risk_hex := colorsHex risk.2
    file_size_mb := file_size_mb
    resolution_w := img.width
    resolution_h := img.height
    color_space := if img.mode = "RGB" ∨ img.mode = "RGBA" then "sRGB" else img.mode
    compression_artifacts := compression
    sha256 := img.sha256
    uuid_field := if uuid_hint != "" then uuid_hint
      else if uuid_embedded then "UUID present (secure capture)" else "Not detected"
    capture_method := capture_method
    capture_integrity_status := capture_integrity
    chain_of_custody_status := chain_status
    secure_capture := uuid_embedded
    device_make := make
    device_model := model
    datetime := dt_original
    software := software
    gps_present := gpsP
    exif_present := exifP
    ela_mean := ela.ela_mean
    ela_p95 := ela.ela_p95
    tampering_probability := tamper_prob
    ai_label := if aiScore ≥ 50 then "Likely AI-assisted" else "Not fully synthetic (low–moderate)"
    risk_drivers := drivers
    recommendation :=
      if risk.1 = "Medium–High Risk" ∨ risk.1 = "High Fraud Risk" then
        "Request the original image file directly from the device; cross-check with additional photos/videos; validate claim timeline with supporting evidence; flag claim for enhanced fraud review."
      else
        "Proceed with standard claim validation; retain the original file for audit." }

/-- Embeds `analyze_image` with the file-system behaviour of its `_ela_metrics`
call explicit: an exception in the ELA step propagates and aborts the
whole analysis.  Second component: whether the scratch file outlives the
call. -/
def analyze_image_run (img : ImageData) (original_filename : String)
    (secure_capture_flag : Bool) (o : FsOracle) (now : String) :
    Except ElaError ForensicResult × Bool :=
  match ela_metrics_run img.elaMean img.elaP95 o with
  | (Except.error e, left) => (Except.error e, left)
  | (Except.ok _, left) =>
    (Except.ok (analyze_image img original_filename secure_capture_flag now), left)

/-- Removes the only wall-clock-dependent field of a result record. -/
def eraseTimestamp (r : ForensicResult) : ForensicResult :=
  { r with generated_at := "" }

/-! ### Basic facts about the rounding model -/

theorem floor_le_pyRound (q : ℚ) : ⌊q⌋ ≤ pyRound q := by
  unfold pyRound
  split_ifs <;> omega

theorem pyRound_le_floor_add_one (q : ℚ) : pyRound q ≤ ⌊q⌋ + 1 := by
  unfold pyRound
  split_ifs <;> omega

theorem le_pyRound {n : ℤ} {q : ℚ} (h : (n : ℚ) ≤ q) : n ≤ pyRound q :=
  le_trans (Int.le_floor.mpr h) (floor_le_pyRound q)

theorem pyRound_le {q : ℚ} {n : ℤ} (h : q ≤ (n : ℚ)) : pyRound q ≤ n := by
  have hfl : ⌊q⌋ ≤ n := by
    have h1 := Int.floor_le_floor h
    simpa using h1
  rcases lt_or_eq_of_le hfl with hlt | heq
  · have h2 := pyRound_le_floor_add_one q
    omega
  · have hfr : Int.fract q < 1/2 := by
    -- `⌊q⌋ = n` and `q ≤ n` force the fractional part to zero
      have hdef : Int.fract q = q - (⌊q⌋ : ℚ) := rfl
      have h0 : Int.fract q ≤ 0 := by
        rw [hdef, heq]
        linarith
      have h1 := Int.fract_nonneg q
      linarith
    unfold pyRound
    rw [if_pos hfr]
    omega

theorem pyRound_add_ten (q : ℚ) : pyRound (q + 10) = pyRound q + 10 := by
  unfold pyRound
  have h10 : (10 : ℚ) = ((10 : ℤ) : ℚ) := by norm_num
  have hf : Int.fract (q + (10 : ℚ)) = Int.fract q := by
    rw [h10, Int.fract_add_int]
  have hfl : ⌊q + (10 : ℚ)⌋ = ⌊q⌋ + 10 := by
    rw [h10, Int.floor_add_int]
  rw [hf, hfl]
  split_ifs <;> omega

theorem pyRound_intCast (n : ℤ) : pyRound ((n : ℚ)) = n := by
  unfold pyRound
  rw [Int.fract_intCast, Int.floor_intCast]
  norm_num

/-! ### Range lemmas for the individual scores -/

theorem tampering_probability_nonneg {m p : ℚ} (hm : 0 ≤ m) (hp : 0 ≤ p) :
    0 ≤ tampering_probability m p := by
  unfold tampering_probability
  apply le_pyRound (n := 0)
  push_cast
  apply le_min (by norm_num)
  have h1 : 0 ≤ m * (9/5) := mul_nonneg hm (by norm_num)
  have h2 : 0 ≤ p * (11/50) := mul_nonneg hp (by norm_num)
  linarith

theorem tampering_probability_le_100 (m p : ℚ) : tampering_probability m p ≤ 100 := by
  unfold tampering_probability
  apply pyRound_le (n := 100)
  push_cast
  exact min_le_left _ _

theorem compute_metadata_integrity_bounds (e g d s : Bool) :
    0 ≤ compute_metadata_integrity e g d s ∧ compute_metadata_integrity e g d s ≤ 100 := by
  simp only [compute_metadata_integrity]
  split_ifs <;> decide

theorem ai_score_of_le_100 (w h : ℕ) (ex : Exif) : ai_score_of w h ex ≤ 100 := by
  simp only [ai_score_of]
  exact min_le_left _ _

theorem compute_authenticity_score_bounds (m t a b : ℤ) :
    5 ≤ compute_authenticity_score m t a b ∧ compute_authenticity_score m t a b ≤ 100 := by
  simp only [compute_authenticity_score]
  exact ⟨le_max_left _ _, max_le (by norm_num) (min_le_left _ _)⟩

/-! ### Claim C1 -/

/-- Claim C1, counterexample to the tamper-probability range `[5, 95]`:
`_ela_metrics` only clamps from above with `min(100.0, ...)`, mapping a
zero difference array (an image that is a fixed point of the JPEG
re-encode, e.g. a uniform colour image) to a published tamper
probability of 0, and large difference statistics (both achievable
values for a 0–255 array) to exactly 100. -/
theorem claim_C1_counterexample :
    tampering_probability 0 0 = 0 ∧ tampering_probability 150 150 = 100 := by
  constructor
  · unfold tampering_probability
    have h : (min 100 ((0:ℚ) * (9/5) + (0:ℚ) * (11/50)) : ℚ) = ((0 : ℤ) : ℚ) := by norm_num
    rw [h, pyRound_intCast]
  · unfold tampering_probability
    have h : (min 100 ((150:ℚ) * (9/5) + (150:ℚ) * (11/50)) : ℚ) = ((100 : ℤ) : ℚ) := by norm_num
    rw [h, pyRound_intCast]

/-- Claim C1 as amended: for every completed analysis the published scores
are bounded — metadata-integrity score in `[0, 100]`, AI-heuristic score
in `[0, 100]`, overall authenticity score in `[5, 100]` with the floor
`minFloor = 5 > 0`, but the tamper probability lies in `[0, 100]` (the
code clamps it only from above at 100; 0 and 100 are both attainable),
not in `[5, 95]` as claimed. -/
theorem claim_C1_score_ranges (m p : ℚ) (hm : 0 ≤ m) (hp : 0 ≤ p)
    (e g d s : Bool) (w hh : ℕ) (ex : Exif) (ms tp as bo : ℤ) :
    (0 ≤ tampering_probability m p ∧ tampering_probability m p ≤ 100) ∧
    (0 ≤ compute_metadata_integrity e g d s ∧ compute_metadata_integrity e g d s ≤ 100) ∧
    (0 ≤ ai_score_of w hh ex ∧ ai_score_of w hh ex ≤ 100) ∧
    (5 ≤ compute_authenticity_score ms tp as bo ∧ compute_authenticity_score ms tp as bo ≤ 100) :=
  ⟨⟨tampering_probability_nonneg hm hp, tampering_probability_le_100 m p⟩,
   compute_metadata_integrity_bounds e g d s,
   ⟨Nat.zero_le _, ai_score_of_le_100 w hh ex⟩,
   compute_authenticity_score_bounds ms tp as bo⟩

/-- Witness for the amended claim C1 at concrete inputs. -/
theorem claim_C1_score_ranges_witness :
    (0 ≤ tampering_probability 1 2 ∧ tampering_probability 1 2 ≤ 100) ∧
    (0 ≤ compute_metadata_integrity false true false true ∧
      compute_metadata_integrity false true false true ≤ 100) ∧
    (0 ≤ ai_score_of 512 512 ⟨[], [], []⟩ ∧ ai_score_of 512 512 ⟨[], [], []⟩ ≤ 100) ∧
    (5 ≤ compute_authenticity_score 50 50 30 10 ∧ compute_authenticity_score 50 50 30 10 ≤ 100) :=
  claim_C1_score_ranges 1 2 (by norm_num) (by norm_num)
    false true false true 512 512 ⟨[], [], []⟩ 50 50 30 10

/-! ### Claim C2 -/

theorem compute_authenticity_score_le_89 (meta tamper ai bonus : ℤ)
    (hai : 0 ≤ ai) (hb1 : bonus ≤ 10) (ht : 42 ≤ tamper) :
    compute_authenticity_score meta tamper ai bonus ≤ 89 := by
  simp only [compute_authenticity_score]
  have h1 : (21 : ℚ) ≤ min ((tamper : ℚ) * (1/2)) 40 := by
    apply le_min
    · have hc : (42 : ℚ) ≤ (tamper : ℚ) := by exact_mod_cast ht
      linarith
    · norm_num
  have h2 : (0 : ℚ) ≤ min ((ai : ℚ) * (3/10)) 20 := by
    apply le_min
    · have hc : (0 : ℚ) ≤ (ai : ℚ) := by exact_mod_cast hai
      linarith
    · norm_num
  have h3 : (0 : ℚ) ≤ max 0 (50 - (meta : ℚ) * (1/2)) := le_max_left 0 _
  have hb : (bonus : ℚ) ≤ 10 := by exact_mod_cast hb1
  have hq : 100 - (min ((tamper : ℚ) * (1/2)) 40 + min ((ai : ℚ) * (3/10)) 20 +
      max 0 (50 - (meta : ℚ) * (1/2))) + (bonus : ℚ) ≤ ((89 : ℤ) : ℚ) := by
    push_cast
    linarith
  have hr := pyRound_le hq
  omega

/-- Claim C2, confirmed with the fixed threshold 42: once the tamper
probability reaches 42, the tamper penalty is at least 21, so even with
a perfect metadata score, a zero AI score and the full secure-capture
bonus of 10 the overall score is at most 89, strictly below the
"Highly Authentic" cutoff of 90.  (42 is sharp: metadata 100, AI 0,
bonus 10 and tamper 41 score exactly 90.) -/
theorem claim_C2_tamper_override (meta tamper ai bonus : ℤ)
    (hai : 0 ≤ ai) (hb1 : bonus ≤ 10) (ht : 42 ≤ tamper) :
    (risk_from_score (compute_authenticity_score meta tamper ai bonus)).1 ≠ "Highly Authentic" := by
  have hs := compute_authenticity_score_le_89 meta tamper ai bonus hai hb1 ht
  unfold risk_from_score
  split_ifs with h1 h2 h3
  · omega
  · exact fun hc => absurd hc (by decide)
  · exact fun hc => absurd hc (by decide)
  · exact fun hc => absurd hc (by decide)

/-- Witness for claim C2 at concrete inputs. -/
theorem claim_C2_tamper_override_witness :
    (risk_from_score (compute_authenticity_score 100 50 0 10)).1 ≠ "Highly Authentic" :=
  claim_C2_tamper_override 100 50 0 10 (by norm_num) (by norm_num) (by norm_num)

/-! ### Claim C4 -/

/-- Claim C4, counterexample to the label set: at score 80 the classifier
returns "Low Risk", which is not among the four labels named by the
claim ("Partially Authentic" and "Suspicious" do not occur in the code;
its middle tiers are "Low Risk" and "Medium–High Risk"). -/
theorem claim_C4_counterexample :
    (risk_from_score 80).1 ∉
      (["Highly Authentic", "Partially Authentic", "Suspicious", "High Fraud Risk"] : List String) := by
  decide

/-- Claim C4 as amended: the risk classifier is a pure total mapping with
fixed cutoffs 90 / 75 / 60 onto the four ordered labels
"Highly Authentic" (≥ 90), "Low Risk" (≥ 75), "Medium–High Risk" (≥ 60)
and "High Fraud Risk" (< 60) — not "Partially Authentic" / "Suspicious"
as the spec names the middle tiers.  The four bands are exhaustive and
mutually disjoint, so every score (in particular every score in
`[0, 100]`, boundary values included) receives exactly one label. -/
theorem claim_C4_partition (s : ℤ) :
    (((risk_from_score s).1 = "Highly Authentic" ↔ 90 ≤ s) ∧
     ((risk_from_score s).1 = "Low Risk" ↔ 75 ≤ s ∧ s < 90) ∧
     ((risk_from_score s).1 = "Medium–High Risk" ↔ 60 ≤ s ∧ s < 75) ∧
     ((risk_from_score s).1 = "High Fraud Risk" ↔ s < 60)) ∧
    ((risk_from_score s).1 = "Highly Authentic" ∨ (risk_from_score s).1 = "Low Risk" ∨
     (risk_from_score s).1 = "Medium–High Risk" ∨ (risk_from_score s).1 = "High Fraud Risk") := by
  unfold risk_from_score
  split_ifs with h1 h2 h3
  · exact ⟨⟨iff_of_true rfl h1, iff_of_false (by decide) (by omega),
      iff_of_false (by decide) (by omega), iff_of_false (by decide) (by omega)⟩, Or.inl rfl⟩
  · exact ⟨⟨iff_of_false (by decide) (by omega), iff_of_true rfl ⟨h2, by omega⟩,
      iff_of_false (by decide) (by omega), iff_of_false (by decide) (by omega)⟩, Or.inr (Or.inl rfl)⟩
  · exact ⟨⟨iff_of_false (by decide) (by omega), iff_of_false (by decide) (by omega),
      iff_of_true rfl ⟨h3, by omega⟩, iff_of_false (by decide) (by omega)⟩, Or.inr (Or.inr (Or.inl rfl))⟩
  · exact ⟨⟨iff_of_false (by decide) (by omega), iff_of_false (by decide) (by omega),
      iff_of_false (by decide) (by omega), iff_of_true rfl (by omega)⟩, Or.inr (Or.inr (Or.inr rfl))⟩

/-! ### Claim C10 -/

theorem get_software_of_no_exif {e : Exif} (h : exif_present e = false) :
    get_software e = "Unknown" := by
  have hz : e.zeroth = [] := by
    cases hz : e.zeroth with
    | nil => rfl
    | cons a l =>
      unfold exif_present at h
      rw [hz] at h
      simp at h
  unfold get_software
  rw [hz]
  rfl

theorem isGenerativeSoftware_unknown : isGenerativeSoftware "Unknown" = false := by decide

/-- Claim C10, confirmed: when the EXIF is absent the software lookup
falls back to "Unknown", which matches no generative-tool substring, so
the +20 "no metadata" and +40 "generative software tag" increments are
mutually exclusive; the AI score is therefore at most 25 + 40 = 65, and
the `min(100, ...)` cap never binds (third conjunct: the capped score
equals the raw sum of increments). -/
theorem claim_C10_ai_increments_exclusive (w h : ℕ) (e : Exif) :
    ¬(exif_present e = false ∧ isGenerativeSoftware (get_software e) = true) ∧
    ai_score_of w h e ≤ 65 ∧
    ai_score_of w h e =
      (if w = h ∧ (w = 512 ∨ w = 768 ∨ w = 1024 ∨ w = 1536) then 25 else 0) +
      (if exif_present e then 0 else 20) +
      (if isGenerativeSoftware (get_software e) then 40 else 0) := by
  have key : exif_present e = false → isGenerativeSoftware (get_software e) = false := by
    intro hfe
    rw [get_software_of_no_exif hfe]
    exact isGenerativeSoftware_unknown
  refine ⟨?_, ?_, ?_⟩
  · rintro ⟨h1, h2⟩
    rw [key h1] at h2
    cases h2
  · rcases Bool.eq_false_or_eq_true (exif_present e) with hte | hfe
    · simp [ai_score_of, hte]
      split_ifs <;> decide
    · simp [ai_score_of, hfe, key hfe]
      split_ifs <;> decide
  · rcases Bool.eq_false_or_eq_true (exif_present e) with hte | hfe
    · simp [ai_score_of, hte]
      split_ifs <;> decide
    · simp [ai_score_of, hfe, key hfe]
      split_ifs <;> decide

/-! ### Claim C5 -/

/-- Following the words of spec section 4.2 (refinement target): the GPS
IFD carries both the latitude pair (tags 1 `GPSLatitudeRef`,
2 `GPSLatitude`) and the longitude pair (tags 3 `GPSLongitudeRef`,
4 `GPSLongitude`) that a DMS-plus-hemisphere decode into signed decimal
degrees requires. -/
def specGpsDecodable (e : Exif) : Bool :=
  (e.gps.lookup 1).isSome && (e.gps.lookup 2).isSome &&
  (e.gps.lookup 3).isSome && (e.gps.lookup 4).isSome

/-- Claim C5, counterexample: a GPS IFD holding only a hemisphere
reference (tag 1, value "N") and neither coordinate makes `_gps_present`
report GPS as present, although no latitude or longitude could possibly
decode — the code never attempts the DMS decode the claim describes. -/
theorem claim_C5_counterexample :
    gps_present ⟨[], [], [(1, "N")]⟩ = true ∧
    specGpsDecodable ⟨[], [], [(1, "N")]⟩ = false := by
  decide

/-- Claim C5 as amended: GPS is reported present exactly when the GPS IFD
is non-empty; the code performs no DMS decoding, so decodable
coordinates (all four GPS tags present) imply a "present" report, but
"present" does not require them. -/
theorem claim_C5_gps_presence (e : Exif) :
    (gps_present e = true ↔ e.gps ≠ []) ∧
    (specGpsDecodable e = true → gps_present e = true) := by
  constructor
  · simp [gps_present]
  · intro h
    unfold specGpsDecodable at h
    unfold gps_present
    cases hg : e.gps with
    | nil => rw [hg] at h; simp at h
    | cons a l => simp

/-- Witness for the amended claim C5 at a concrete EXIF record. -/
theorem claim_C5_gps_presence_witness :
    ((gps_present ⟨[], [], [(1, "N"), (2, "40/1"), (3, "E"), (4, "30/1")]⟩ = true ↔
      (⟨[], [], [(1, "N"), (2, "40/1"), (3, "E"), (4, "30/1")]⟩ : Exif).gps ≠ []) ∧
     gps_present ⟨[], [], [(1, "N"), (2, "40/1"), (3, "E"), (4, "30/1")]⟩ = true) :=
  ⟨(claim_C5_gps_presence ⟨[], [], [(1, "N"), (2, "40/1"), (3, "E"), (4, "30/1")]⟩).1,
   (claim_C5_gps_presence ⟨[], [], [(1, "N"), (2, "40/1"), (3, "E"), (4, "30/1")]⟩).2 (by decide)⟩

/-! ### Claim C6 -/

/-- Claim C6, confirmed: the metadata-integrity scorer starts at 100 and
deducts the fixed amounts 30 / 20 / 20 / 10 per missing field (the
`[0, 100]` clamp is present and in fact inert, since the worst case is
20), the result is never negative, and an asset with all metadata
unknown scores 20 ≤ 50 while the risk-driver list carries the
"EXIF metadata missing or stripped." entry. -/
theorem claim_C6_metadata_integrity (e g d s : Bool) (img : ImageData)
    (fn now : String) (flag : Bool) (hexif : img.exif = ⟨[], [], []⟩) :
    (compute_metadata_integrity e g d s =
      100 - (if e then 0 else 30) - (if g then 0 else 20) -
        (if d then 0 else 20) - (if s then 0 else 10)) ∧
    (0 ≤ compute_metadata_integrity e g d s ∧ compute_metadata_integrity e g d s ≤ 100) ∧
    ((analyze_image img fn flag now).metadata_score = 20 ∧
     (analyze_image img fn flag now).metadata_score ≤ 50 ∧
     "EXIF metadata missing or stripped." ∈ (analyze_image img fn flag now).risk_drivers) := by
  refine ⟨?_, compute_metadata_integrity_bounds e g d s, ?_, ?_, ?_⟩
  · simp only [compute_metadata_integrity]
    split_ifs <;> decide
  · simp only [analyze_image, hexif]
    decide
  · simp only [analyze_image, hexif]
    decide
  · have hexifp : exif_present ⟨[], [], []⟩ = false := by decide
    simp [analyze_image, hexif, hexifp]

/-- Witness for claim C6 at a concrete all-unknown asset. -/
theorem claim_C6_metadata_integrity_witness :
    (compute_metadata_integrity false false false false =
      100 - (if false then 0 else 30) - (if false then 0 else 20) -
        (if false then 0 else 20) - (if false then 0 else 10)) ∧
    (0 ≤ compute_metadata_integrity false false false false ∧
     compute_metadata_integrity false false false false ≤ 100) ∧
    ((analyze_image ⟨1024, 1024, 1048576, "RGB", "h0", ⟨[], [], []⟩, 0, 0⟩ "p.jpg" false "today").metadata_score = 20 ∧
     (analyze_image ⟨1024, 1024, 1048576, "RGB", "h0", ⟨[], [], []⟩, 0, 0⟩ "p.jpg" false "today").metadata_score ≤ 50 ∧
     "EXIF metadata missing or stripped." ∈
       (analyze_image ⟨1024, 1024, 1048576, "RGB", "h0", ⟨[], [], []⟩, 0, 0⟩ "p.jpg" false "today").risk_drivers) :=
  claim_C6_metadata_integrity false false false false
    ⟨1024, 1024, 1048576, "RGB", "h0", ⟨[], [], []⟩, 0, 0⟩ "p.jpg" "today" false rfl

/-! ### Claim C3 -/

theorem auth_score_bonus_mono (m t a : ℤ) :
    compute_authenticity_score m t a 0 ≤ compute_authenticity_score m t a 10 := by
  simp only [compute_authenticity_score]
  have h : (100 : ℚ) - (min ((t : ℚ) * (1/2)) 40 + min ((a : ℚ) * (3/10)) 20 +
        max 0 (50 - (m : ℚ) * (1/2))) + ((10 : ℤ) : ℚ)
      = (100 - (min ((t : ℚ) * (1/2)) 40 + min ((a : ℚ) * (3/10)) 20 +
        max 0 (50 - (m : ℚ) * (1/2))) + ((0 : ℤ) : ℚ)) + 10 := by
    push_cast
    ring
  rw [h, pyRound_add_ten]
  omega

/-- Claim C3, counterexample to "different ChainOfCustodyStatus values":
when the shared filename contains a UUID token, `uuid_embedded` is true
in both runs, so the run with `secure_capture_flag = false` reports the
same "Intact" chain-of-custody status as the run with the flag set. -/
theorem claim_C3_counterexample :
    (analyze_image ⟨1024, 1024, 1048576, "RGB", "h0", ⟨[], [], []⟩, 0, 0⟩
        "12345678-1234-1234-1234-123456789abc.jpg" true "d").chain_of_custody_status =
    (analyze_image ⟨1024, 1024, 1048576, "RGB", "h0", ⟨[], [], []⟩, 0, 0⟩
        "12345678-1234-1234-1234-123456789abc.jpg" false "d").chain_of_custody_status := by
  decide

/-- Claim C3 as amended: for the same image bytes and the same filename,
the overall score with the secure-capture flag set is always at least
the score without it; the two runs report different ChainOfCustodyStatus
values ("Intact" vs "Not Verifiable") exactly when the filename carries
no UUID token — when it does, both runs report "Intact". -/
theorem claim_C3_secure_flag_effect (img : ImageData) (fn now : String) :
    ((analyze_image img fn false now).overall_risk ≤ (analyze_image img fn true now).overall_risk) ∧
    (uuid_from_filename fn = "" →
      (analyze_image img fn true now).chain_of_custody_status = "Intact" ∧
      (analyze_image img fn false now).chain_of_custody_status = "Not Verifiable") ∧
    (uuid_from_filename fn ≠ "" →
      (analyze_image img fn true now).chain_of_custody_status =
      (analyze_image img fn false now).chain_of_custody_status) := by
  refine ⟨?_, ?_, ?_⟩
  · by_cases hu : uuid_from_filename fn = ""
    · simp only [analyze_image, hu]
      simp
      exact auth_score_bonus_mono _ _ _
    · simp only [analyze_image]
      simp [hu]
  · intro hu
    simp [analyze_image, hu]
  · intro hu
    simp [analyze_image, hu]

/-- Witness for the amended claim C3 at a UUID-free filename. -/
theorem claim_C3_secure_flag_effect_witness :
    ((analyze_image ⟨800, 600, 2097152, "RGB", "h1", ⟨[], [], []⟩, 3, 7⟩ "photo.jpg" false "d").overall_risk ≤
      (analyze_image ⟨800, 600, 2097152, "RGB", "h1", ⟨[], [], []⟩, 3, 7⟩ "photo.jpg" true "d").overall_risk) ∧
    ((analyze_image ⟨800, 600, 2097152, "RGB", "h1", ⟨[], [], []⟩, 3, 7⟩ "photo.jpg" true "d").chain_of_custody_status = "Intact" ∧
     (analyze_image ⟨800, 600, 2097152, "RGB", "h1", ⟨[], [], []⟩, 3, 7⟩ "photo.jpg" false "d").chain_of_custody_status = "Not Verifiable") :=
  ⟨(claim_C3_secure_flag_effect ⟨800, 600, 2097152, "RGB", "h1", ⟨[], [], []⟩, 3, 7⟩ "photo.jpg" "d").1,
   (claim_C3_secure_flag_effect ⟨800, 600, 2097152, "RGB", "h1", ⟨[], [], []⟩, 3, 7⟩ "photo.jpg" "d").2.1 (by decide)⟩

/-! ### Claim C7 -/

/-- Claim C7, counterexample to "marked explicitly unavailable": when the
recompression reopen step of `_ela_metrics` fails, the exception
propagates out of `analyze_image`, so the analysis returns no result
record at all — nothing is marked "unavailable"; the code aborts
instead. -/
theorem claim_C7_counterexample :
    (analyze_image_run ⟨800, 600, 2097152, "RGB", "h1", ⟨[], [], []⟩, 3, 7⟩ "f.jpg" false
      ⟨true, false, true⟩ "d").1 = Except.error ElaError.reopenFail := by
  rfl

/-- Claim C7 as amended: if the recompression step fails, the whole
analysis aborts with the propagated error and produces no result, so
the tamper signal is indeed never silently substituted by zero or any
placeholder — every published tamper score comes from a run whose ELA
file operations all succeeded and equals the genuinely computed
probability. -/
theorem claim_C7_no_silent_zero (img : ImageData) (fn now : String) (flag : Bool)
    (o : FsOracle) (r : ForensicResult) :
    (¬(o.saveOk = true ∧ o.reopenOk = true) →
      ((analyze_image_run img fn flag o now).1).isOk = false) ∧
    ((analyze_image_run img fn flag o now).1 = Except.ok r →
      o.saveOk = true ∧ o.reopenOk = true ∧
      r.tampering_score = tampering_probability img.elaMean img.elaP95) := by
  rcases o with ⟨so, ro, mo⟩
  cases so <;> cases ro <;>
    simp [analyze_image_run, ela_metrics_run, Except.isOk, Except.toBool]
  intro hr
  subst hr
  rfl

/-- Witness for the amended claim C7: one failing and one succeeding run. -/
theorem claim_C7_no_silent_zero_witness :
    (((analyze_image_run ⟨800, 600, 2097152, "RGB", "h1", ⟨[], [], []⟩, 3, 7⟩ "f.jpg" false
        ⟨true, false, true⟩ "d").1).isOk = false) ∧
    ((⟨true, true, true⟩ : FsOracle).saveOk = true ∧
      (⟨true, true, true⟩ : FsOracle).reopenOk = true ∧
      (analyze_image ⟨800, 600, 2097152, "RGB", "h1", ⟨[], [], []⟩, 3, 7⟩ "f.jpg" false "d").tampering_score =
        tampering_probability (3 : ℚ) (7 : ℚ)) :=
  ⟨(claim_C7_no_silent_zero ⟨800, 600, 2097152, "RGB", "h1", ⟨[], [], []⟩, 3, 7⟩ "f.jpg" "d" false
      ⟨true, false, true⟩ (analyze_image ⟨800, 600, 2097152, "RGB", "h1", ⟨[], [], []⟩, 3, 7⟩ "f.jpg" false "d")).1
      (by decide),
   (claim_C7_no_silent_zero ⟨800, 600, 2097152, "RGB", "h1", ⟨[], [], []⟩, 3, 7⟩ "f.jpg" "d" false
      ⟨true, true, true⟩ (analyze_image ⟨800, 600, 2097152, "RGB", "h1", ⟨[], [], []⟩, 3, 7⟩ "f.jpg" false "d")).2
      rfl⟩

/-! ### Claim C8 -/

/-- Claim C8: the code violates it on both conjuncts.  `_ela_metrics`
derives its scratch path as `os.path.join(os.path.dirname(image_path),
"_tmp_recompress.jpg")`, so two distinct invocations on different images
in the same directory share one fixed scratch path; and the
`os.remove` runs only after the reopen-and-measure steps, so when the
reopen step raises, the scratch file outlives the call (last conjunct;
by contrast a fully successful run does clean up). -/
theorem claim_C8_scratch_violations :
    ela_tmp_path "uploads/a.jpg" = "uploads/_tmp_recompress.jpg" ∧
    ela_tmp_path "uploads/b.jpg" = ela_tmp_path "uploads/a.jpg" ∧
    "uploads/a.jpg" ≠ "uploads/b.jpg" ∧
    (ela_metrics_run 0 0 ⟨true, false, true⟩).2 = true ∧
    (ela_metrics_run 0 0 ⟨true, true, true⟩).2 = false := by
  decide

/-! ### Claim C9 -/

/-- Claim C9, confirmed: the embedded `analyze_image` is a pure function
of the image-derived data, filename and flag; the wall-clock input
(`datetime.now`, the only nondeterministic dependency of the source
function) flows into the `generated_at` field alone, so two analyses of
identical bytes, filename and flags agree on every other field. -/
theorem claim_C9_determinism (img : ImageData) (fn : String) (flag : Bool) (now1 now2 : String) :
    eraseTimestamp (analyze_image img fn flag now1) =
    eraseTimestamp (analyze_image img fn flag now2) := rfl

end PinIT
